import Mathlib

/-
Verification development for the student performance classification engine
(src/etl/students_etl/calculate_performance.py).  Python dictionaries are
modelled as Lean structures; loose optional keys become Option fields;
Python floats are modelled exactly as rationals.
-/

namespace CalcPerf

/-- Per-lesson classification labels produced by the engine. -/
inductive Classification where
  | star
  | high_runner
  | normal
  | insufficient_data
deriving DecidableEq, Repr

/-- Modelled from the spec: `MongoDBConnection.parse_timestamp` is referenced by
`calculate_lesson_time_days` but is not present in the repository snapshot.
Per spec 4.1 a timestamp string (format with minute resolution) is parsed
into an instant; we represent a present, non-empty timestamp string by its
parse result: `parsed = some m` when it parses to the instant `m` minutes
after a fixed epoch, `parsed = none` when parsing raises.  An absent or
empty (falsy) timestamp string is `Option.none` at every use site, which is
observationally identical in this module. -/
structure Timestamp where
  parsed : Option Int
deriving DecidableEq, Repr

/-- Configuration constant: minimum students required for meaningful averages. -/
def MINIMUM_COHORT_SIZE : Nat := 10

/-- Configuration constant: total number of lessons. -/
def TOTAL_LESSONS : Int := 18

/-- Chapter A lessons: `list(range(1, 7))`. -/
def CHAPTER_A_LESSONS : List Int := [1, 2, 3, 4, 5, 6]

/-- Chapter B lessons: `list(range(7, 12))`. -/
def CHAPTER_B_LESSONS : List Int := [7, 8, 9, 10, 11]

/-- Standalone lesson 12. -/
def LESSON_12 : List Int := [12]

/-- Chapter C lessons: `list(range(13, 19))`. -/
def CHAPTER_C_LESSONS : List Int := [13, 14, 15, 16, 17, 18]

/-- Minutes per day; Python `timedelta.days` floors the difference. -/
def MINUTES_PER_DAY : Int := 1440

/-- `calculate_lesson_time_days`: returns 0 when either timestamp is absent
(or falsy) or parsing raises; otherwise `max(1, (last - first).days)` where
`.days` is the floored day difference. -/
def calculate_lesson_time_days (first_practice last_practice : Option Timestamp) : Int :=
  match first_practice, last_practice with
  | some f, some lp =>
    match f.parsed, lp.parsed with
    | some fm, some lm => max 1 (Int.fdiv (lm - fm) MINUTES_PER_DAY)
    | _, _ => 0
  | _, _ => 0

/-- `classify_student_for_lesson`: first-match decision order over the cohort
statistics; comparisons of the student's integers against the rational
cohort averages. -/
def classify_student_for_lesson (student_practice : Nat) (student_time : Int)
    (cohort_avg_practice cohort_avg_time : ℚ) (cohort_size : Nat) : Classification :=
  if cohort_size < MINIMUM_COHORT_SIZE then Classification.insufficient_data
  else if (student_practice : ℚ) < cohort_avg_practice ∧ (student_time : ℚ) < cohort_avg_time then
    Classification.star
  else if cohort_avg_practice ≤ (student_practice : ℚ) ∧ (student_time : ℚ) < cohort_avg_time then
    Classification.high_runner
  else Classification.normal

/-- `calculate_overall_classification`: most common label after discarding
`insufficient_data`, ties resolved by priority star, high_runner, normal.
The Counter's maximal count is the maximum of the three per-label counts
(all labels in the filtered list are among these three). -/
def calculate_overall_classification (classifications : List Classification) : Classification :=
  if classifications.isEmpty then Classification.normal
  else
    let counts := classifications.filter (fun c => decide (c ≠ Classification.insufficient_data))
    if counts.isEmpty then Classification.normal
    else
      let max_count :=
        max (counts.count Classification.star)
          (max (counts.count Classification.high_runner) (counts.count Classification.normal))
      if counts.count Classification.star = max_count then Classification.star
      else if counts.count Classification.high_runner = max_count then Classification.high_runner
      else Classification.normal

/-- Half-to-even integer rounding on rationals, the rounding mode of Python's
`round`; floats are modelled exactly as rationals. -/
def roundHalfEven (q : ℚ) : Int :=
  if q - ⌊q⌋ < 1 / 2 then ⌊q⌋
  else if 1 / 2 < q - ⌊q⌋ then ⌊q⌋ + 1
  else if ⌊q⌋ % 2 = 0 then ⌊q⌋ else ⌊q⌋ + 1

/-- Python `round(q, 2)` modelled exactly on rationals. -/
def round2 (q : ℚ) : ℚ := (roundHalfEven (q * 100) : ℚ) / 100

/-- Result of `calculate_chapter_summary`. -/
structure ChapterSummary where
  classification : Option Classification
  stars : Nat
  high_runners : Nat
  normal : Nat
  completed_lessons : Nat
deriving DecidableEq, Repr

/-- The `performance_summary` dictionary.  The extra `completed` key that the
caller adds to the lesson-12 chapter dictionary is flattened into the
separate field `lesson_12_completed`. -/
structure PerformanceSummary where
  overall_classification : Classification
  total_lessons_classified : Nat
  stars_count : Nat
  high_runners_count : Nat
  normal_count : Nat
  chapter_a : ChapterSummary
  chapter_b : ChapterSummary
  lesson_12 : ChapterSummary
  lesson_12_completed : Bool
  chapter_c : ChapterSummary
deriving DecidableEq, Repr

/-- A lesson dictionary inside a student document.  `lesson` is the stored
lesson value as a string (`str` of the stored value); timestamps are `none`
when the key is absent or the value falsy; the five computed fields are
`none` when absent. -/
structure LessonInstance where
  lesson : String
  teacher : String := ""
  practice_count : Nat := 0
  first_practice : Option Timestamp := none
  last_practice : Option Timestamp := none
  lesson_time_days : Option Int := none
  classification : Option Classification := none
  cohort_avg_practice : Option ℚ := none
  cohort_avg_time_days : Option ℚ := none
  cohort_size : Option Nat := none
deriving DecidableEq, Repr

/-- A student document.  `uniq_id` is `none` when missing or falsy;
`current_lesson` is the stored string. -/
structure Student where
  uniq_id : Option String := none
  name : String := ""
  current_lesson : String
  lessons : List LessonInstance
  performance_summary : Option PerformanceSummary := none
deriving DecidableEq, Repr

/-- The dictionary returned by `get_cohort_stats_for_lesson`. -/
structure CohortStats where
  cohort_size : Nat
  cohort_avg_practice : ℚ
  cohort_avg_time_days : ℚ
deriving DecidableEq, Repr

/-- The default values read via `cohort.get(key, 0)` when a lesson number is
not a key of the cohort-stats table. -/
def emptyCohortStats : CohortStats := ⟨0, 0, 0⟩

/-- Decimal digit run to a natural number. -/
def digitsVal (cs : List Char) : Nat :=
  cs.foldl (fun acc c => 10 * acc + (c.toNat - 48)) 0

/-- Python `int(s)` on a string: an optional sign (codes 45 and 43) followed
by a nonempty run of decimal digits parses; anything else raises (`none`).
Surrounding-whitespace stripping is omitted; no caller passes padded
strings. -/
def pyParseInt (s : String) : Option Int :=
  match s.toList with
  | [] => none
  | c :: cs =>
    if c.toNat = 45 then
      if cs.isEmpty || !cs.all Char.isDigit then none else some (-(digitsVal cs : Int))
    else if c.toNat = 43 then
      if cs.isEmpty || !cs.all Char.isDigit then none else some ((digitsVal cs : Int))
    else if (c :: cs).all Char.isDigit then some ((digitsVal (c :: cs) : Int))
    else none

/-- The lesson-matching test `str(l.get('lesson')) == str(lesson_num)` used by
`get_cohort_stats_for_lesson` and `calculate_chapter_summary`. -/
def lessonMatches (lesson_num : Int) (l : LessonInstance) : Bool :=
  l.lesson == toString lesson_num

/-- One student's contribution to the cohort of a lesson: the first matching
instance, skipped when absent or missing either timestamp, and skipped when
the computed lesson time is not positive; otherwise its practice count and
lesson time. -/
def includedEntry (lesson_num : Int) (student : Student) : Option (Nat × Int) :=
  match student.lessons.find? (lessonMatches lesson_num) with
  | none => none
  | some l =>
    match l.first_practice, l.last_practice with
    | some f, some lp =>
      let lesson_time := calculate_lesson_time_days (some f) (some lp)
      if lesson_time > 0 then some (l.practice_count, lesson_time) else none
    | _, _ => none

/-- One iteration of the cohort loop: append the student's entry to
`completed_students` when included. -/
def appendIfIncluded (lesson_num : Int) (acc : List (Nat × Int)) (s : Student) :
    List (Nat × Int) :=
  match includedEntry lesson_num s with
  | some e => acc ++ [e]
  | none => acc

/-- `get_cohort_stats_for_lesson`: accumulate the included entries over all
students (the Python loop appending to `completed_students`), then take
count and rounded arithmetic means, with the zero-size guard. -/
def get_cohort_stats_for_lesson (lesson_num : Int) (all_students : List Student) : CohortStats :=
  let completed_students := all_students.foldl (appendIfIncluded lesson_num) []
  let cohort_size := completed_students.length
  if cohort_size = 0 then ⟨0, 0, 0⟩
  else
    let avg_practice := (completed_students.map (fun e => (e.1 : ℚ))).sum / (cohort_size : ℚ)
    let avg_time := (completed_students.map (fun e => (e.2 : ℚ))).sum / (cohort_size : ℚ)
    ⟨cohort_size, round2 avg_practice, round2 avg_time⟩

/-- The skip conditions of one chapter-loop iteration, factored: `none` when
the student has not progressed past the lesson, no instance matches, the
instance has no classification, or the classification is
`insufficient_data`; otherwise the classification to accumulate. -/
def chapterClassOf (lessons : List LessonInstance) (current_lesson : Int) (lesson_num : Int) :
    Option Classification :=
  if current_lesson ≤ lesson_num then none
  else
    match lessons.find? (lessonMatches lesson_num) with
    | none => none
    | some l =>
      match l.classification with
      | none => none
      | some Classification.insufficient_data => none
      | some c => some c

/-- Accumulator of the chapter loop. -/
structure ChapterAcc where
  chapter_classifications : List Classification
  stars : Nat
  high_runners : Nat
  normal : Nat
  completed_lessons : Nat
deriving DecidableEq, Repr

/-- One iteration of the chapter loop. -/
def chapterStep (lessons : List LessonInstance) (current_lesson : Int)
    (acc : ChapterAcc) (lesson_num : Int) : ChapterAcc :=
  match chapterClassOf lessons current_lesson lesson_num with
  | none => acc
  | some c =>
    { chapter_classifications := acc.chapter_classifications ++ [c]
      stars := acc.stars + (if c = Classification.star then 1 else 0)
      high_runners := acc.high_runners + (if c = Classification.high_runner then 1 else 0)
      normal := acc.normal + (if c = Classification.normal then 1 else 0)
      completed_lessons := acc.completed_lessons + 1 }

/-- `calculate_chapter_summary`: run the chapter loop, then the chapter's own
classification is the overall classification of the accumulated list when
nonempty and `None` when empty. -/
def calculate_chapter_summary (lessons : List LessonInstance) (chapter_lesson_nums : List Int)
    (current_lesson : Int) : ChapterSummary :=
  let acc := chapter_lesson_nums.foldl (chapterStep lessons current_lesson) ⟨[], 0, 0, 0, 0⟩
  { classification :=
      if acc.chapter_classifications.isEmpty then none
      else some (calculate_overall_classification acc.chapter_classifications)
    stars := acc.stars
    high_runners := acc.high_runners
    normal := acc.normal
    completed_lessons := acc.completed_lessons }

/-- Set the five computed fields of a lesson dictionary to `None`. -/
def nullOutComputed (l : LessonInstance) : LessonInstance :=
  { l with lesson_time_days := none, classification := none, cohort_avg_practice := none,
           cohort_avg_time_days := none, cohort_size := none }

/-- One iteration of the per-lesson loop of `calculate_performance_for_student`:
returns the updated lesson dictionary and, when the classify branch ran, the
classification appended for the summary counters.  An unparseable lesson
number skips the instance untouched; a not-yet-reached lesson or a missing
timestamp nulls the computed fields; otherwise the lesson time (0 when the
present timestamps do not parse), the cohort numbers and the classification
are stored. -/
def processLesson (current_lesson : Int) (cohort_stats : Int → CohortStats)
    (l : LessonInstance) : LessonInstance × Option Classification :=
  match pyParseInt l.lesson with
  | none => (l, none)
  | some lesson_num =>
    if current_lesson ≤ lesson_num then (nullOutComputed l, none)
    else
      match l.first_practice, l.last_practice with
      | some f, some lp =>
        let lesson_time := calculate_lesson_time_days (some f) (some lp)
        let cohort := cohort_stats lesson_num
        let c := classify_student_for_lesson l.practice_count lesson_time
          cohort.cohort_avg_practice cohort.cohort_avg_time_days cohort.cohort_size
        ({ l with lesson_time_days := some lesson_time
                  classification := some c
                  cohort_avg_practice := some cohort.cohort_avg_practice
                  cohort_avg_time_days := some cohort.cohort_avg_time_days
                  cohort_size := some cohort.cohort_size }, some c)
      | _, _ => (nullOutComputed l, none)

/-- The `completed` flag added to the lesson-12 summary: when the student has
progressed past lesson 12, whether a matching instance exists and carries a
non-`None` classification (read from the updated lessons). -/
def lesson12Completed (lessons : List LessonInstance) (current_lesson : Int) : Bool :=
  if current_lesson > 12 then
    match lessons.find? (lessonMatches 12) with
    | some l => l.classification.isSome
    | none => false
  else false

/-- `int(student.get('current_lesson', '0'))` with the `except` fallback to 0. -/
def currentLessonOf (student : Student) : Int :=
  (pyParseInt student.current_lesson).getD 0

/-- The per-lesson loop of `calculate_performance_for_student` over every
lesson dictionary: the single Python pass, elementwise. -/
def lessonResultsOf (cohort_stats : Int → CohortStats) (student : Student) :
    List (LessonInstance × Option Classification) :=
  student.lessons.map (processLesson (currentLessonOf student) cohort_stats)

/-- The updated (mutated-in-place) lesson dictionaries after the per-lesson
loop. -/
def updatedLessonsOf (cohort_stats : Int → CohortStats) (student : Student) :
    List LessonInstance :=
  (lessonResultsOf cohort_stats student).map Prod.fst

/-- `all_classifications`: the classifications appended by the per-lesson loop,
which skips `insufficient_data`. -/
def allClassificationsOf (cohort_stats : Int → CohortStats) (student : Student) :
    List Classification :=
  ((lessonResultsOf cohort_stats student).filterMap Prod.snd).filter
    (fun c => decide (c ≠ Classification.insufficient_data))

/-- The `performance_summary` dictionary assembled by
`calculate_performance_for_student`: counters from the accumulated
classifications, chapter rollups and the lesson-12 flag over the updated
lessons. -/
def performanceSummaryOf (cohort_stats : Int → CohortStats) (student : Student) :
    PerformanceSummary :=
  let current_lesson := currentLessonOf student
  let lessons := updatedLessonsOf cohort_stats student
  let all_classifications := allClassificationsOf cohort_stats student
  { overall_classification := calculate_overall_classification all_classifications
    total_lessons_classified := all_classifications.length
    stars_count := all_classifications.count Classification.star
    high_runners_count := all_classifications.count Classification.high_runner
    normal_count := all_classifications.count Classification.normal
    chapter_a := calculate_chapter_summary lessons CHAPTER_A_LESSONS current_lesson
    chapter_b := calculate_chapter_summary lessons CHAPTER_B_LESSONS current_lesson
    lesson_12 := calculate_chapter_summary lessons LESSON_12 current_lesson
    lesson_12_completed := lesson12Completed lessons current_lesson
    chapter_c := calculate_chapter_summary lessons CHAPTER_C_LESSONS current_lesson }

/-- `calculate_performance_for_student`: run the per-lesson loop, store the
updated lessons and the assembled summary on the student document. -/
def calculate_performance_for_student (cohort_stats : Int → CohortStats) (student : Student) :
    Student :=
  { student with lessons := updatedLessonsOf cohort_stats student
                 performance_summary := some (performanceSummaryOf cohort_stats student) }

/-- Phase 1: the cohort-stats table built for lesson numbers 1..TOTAL_LESSONS;
a lookup of any other key falls back to the `.get(key, 0)` defaults. -/
def statsTable (all_students : List Student) : Int → CohortStats :=
  fun lesson_num =>
    if 1 ≤ lesson_num ∧ lesson_num ≤ TOTAL_LESSONS then
      get_cohort_stats_for_lesson lesson_num all_students
    else emptyCohortStats

/-- The pure two-phase engine: phase 1 over the snapshot, then phase 2 for
every student against the immutable table. -/
def runEngine (all_students : List Student) : List Student :=
  all_students.map (calculate_performance_for_student (statsTable all_students))

/-- The aggregate counts returned by `calculate_all_student_performance`. -/
structure RunAgg where
  students_processed : Nat
  lessons_classified : Nat
  errors : Nat
deriving DecidableEq, Repr

/-- `updated_student['performance_summary']['total_lessons_classified']`; the
summary is always present on a student produced by
`calculate_performance_for_student`. -/
def summaryLessonsClassified (s : Student) : Nat :=
  match s.performance_summary with
  | some ps => ps.total_lessons_classified
  | none => 0

/-- The per-student loop of `calculate_all_student_performance`.  The
persistence collaborator (`update_one`) is modelled by `persist_ok`: `false`
means the write raised, which the loop catches, counting one error and
performing no write; a student with a missing (falsy) `uniq_id` counts one
error without attempting a write.  Returns the aggregate counts and the
list of successfully written student documents, in order. -/
def processStudents (cohort_stats : Int → CohortStats) (persist_ok : Student → Bool) :
    List Student → RunAgg × List Student
  | [] => (⟨0, 0, 0⟩, [])
  | s :: rest =>
    let updated := calculate_performance_for_student cohort_stats s
    let step : RunAgg × List Student :=
      match s.uniq_id with
      | none => (⟨0, 0, 1⟩, [])
      | some _ =>
        if persist_ok updated then (⟨1, summaryLessonsClassified updated, 0⟩, [updated])
        else (⟨0, 0, 1⟩, [])
    let restR := processStudents cohort_stats persist_ok rest
    (⟨step.1.students_processed + restR.1.students_processed,
      step.1.lessons_classified + restR.1.lessons_classified,
      step.1.errors + restR.1.errors⟩, step.2 ++ restR.2)

/-- `calculate_all_student_performance` with the population-source collaborator
modelled from the spec: `connect_ok` is whether obtaining the connection and
the stats collection succeeds, `fetch_result` is the snapshot fetch (`none`
when it raises).  Either failure aborts with zero counts, one error and no
writes; an empty snapshot returns all-zero counts; otherwise phase 1 builds
the table and the per-student loop runs. -/
def calculate_all_student_performance (connect_ok : Bool)
    (fetch_result : Option (List Student)) (persist_ok : Student → Bool) :
    RunAgg × List Student :=
  if !connect_ok then (⟨0, 0, 1⟩, [])
  else
    match fetch_result with
    | none => (⟨0, 0, 1⟩, [])
    | some all_students =>
      if all_students.isEmpty then (⟨0, 0, 0⟩, [])
      else processStudents (statsTable all_students) persist_ok all_students

/-- The maximal occurrence count among the three countable labels; for a list
without `insufficient_data` this is the Counter's maximal count. -/
def maxLabelCount (xs : List Classification) : Nat :=
  max (xs.count Classification.star)
    (max (xs.count Classification.high_runner) (xs.count Classification.normal))

/-- The fixed tie-break priority star, then high_runner, then normal. -/
def labelPriority : Classification → Nat
  | Classification.star => 2
  | Classification.high_runner => 1
  | _ => 0

/-- Example population: for lesson 1, the first student has a valid completed
instance, the second is missing its first timestamp. -/
def popTwo : List Student :=
  [{ current_lesson := "2",
     lessons := [{ lesson := "1", practice_count := 3,
                   first_practice := some ⟨some 0⟩, last_practice := some ⟨some 2880⟩ }] },
   { current_lesson := "2",
     lessons := [{ lesson := "1", practice_count := 9,
                   first_practice := none, last_practice := some ⟨some 0⟩ }] }]

/-- Example cohort-stats table with a sufficient cohort everywhere. -/
def statsTwelve : Int → CohortStats := fun _ => ⟨12, 5, 3⟩

/-- Example student: on lesson 3, with instances for lessons 1..5, each with
valid timestamps one day apart. -/
def stuFive : Student :=
  { current_lesson := "3",
    lessons := [{ lesson := "1", practice_count := 2,
                  first_practice := some ⟨some 0⟩, last_practice := some ⟨some 1440⟩ },
                { lesson := "2", practice_count := 6,
                  first_practice := some ⟨some 0⟩, last_practice := some ⟨some 1440⟩ },
                { lesson := "3", practice_count := 1,
                  first_practice := some ⟨some 0⟩, last_practice := some ⟨some 1440⟩ },
                { lesson := "4", practice_count := 1,
                  first_practice := some ⟨some 0⟩, last_practice := some ⟨some 1440⟩ },
                { lesson := "5", practice_count := 1,
                  first_practice := some ⟨some 0⟩, last_practice := some ⟨some 1440⟩ }] }

/-- Example student: progressed past lesson 1, whose lesson-1 instance has
both timestamps present but unparseable. -/
def stuBadTs : Student :=
  { current_lesson := "2",
    lessons := [{ lesson := "1", practice_count := 0,
                  first_practice := some ⟨none⟩, last_practice := some ⟨none⟩ }] }

/-- Example population: one student whose only instance stores its lesson
number as the string with a leading zero, with valid same-instant
timestamps. -/
def popZeroOne : List Student :=
  [{ current_lesson := "2",
     lessons := [{ lesson := "01", practice_count := 3,
                   first_practice := some ⟨some 0⟩, last_practice := some ⟨some 0⟩ }] }]

/-- C1: with fewer than MINIMUM_COHORT_SIZE students in the cohort the
Per-Lesson Classifier returns insufficient_data regardless of the student's
numbers; with a sufficient cohort the first-match decision order applies:
below-average practice and below-average time give star, at-least-average
practice and below-average time give high_runner, and everything else
(at-least-average time) gives normal; with cohort averages practice 5 and
time 3 the inputs (2,2), (6,2), (2,4), (6,4) yield star, high_runner,
normal, normal. -/
theorem claim_C1_per_lesson_classifier (student_practice : Nat) (student_time : Int)
    (cohort_avg_practice cohort_avg_time : ℚ) (cohort_size : Nat) :
    (cohort_size < MINIMUM_COHORT_SIZE →
      classify_student_for_lesson student_practice student_time cohort_avg_practice
        cohort_avg_time cohort_size = Classification.insufficient_data) ∧
    (MINIMUM_COHORT_SIZE ≤ cohort_size →
      ((student_practice : ℚ) < cohort_avg_practice → (student_time : ℚ) < cohort_avg_time →
        classify_student_for_lesson student_practice student_time cohort_avg_practice
          cohort_avg_time cohort_size = Classification.star) ∧
      (cohort_avg_practice ≤ (student_practice : ℚ) → (student_time : ℚ) < cohort_avg_time →
        classify_student_for_lesson student_practice student_time cohort_avg_practice
          cohort_avg_time cohort_size = Classification.high_runner) ∧
      (cohort_avg_time ≤ (student_time : ℚ) →
        classify_student_for_lesson student_practice student_time cohort_avg_practice
          cohort_avg_time cohort_size = Classification.normal) ∧
      classify_student_for_lesson 2 2 5 3 cohort_size = Classification.star ∧
      classify_student_for_lesson 6 2 5 3 cohort_size = Classification.high_runner ∧
      classify_student_for_lesson 2 4 5 3 cohort_size = Classification.normal ∧
      classify_student_for_lesson 6 4 5 3 cohort_size = Classification.normal) := by
  constructor
  · intro h
    simp [classify_student_for_lesson, h]
  · intro h
    have hns : ¬ cohort_size < MINIMUM_COHORT_SIZE := not_lt.mpr h
    refine ⟨?_, ?_, ?_, ?_, ?_, ?_, ?_⟩ <;>
      simp only [classify_student_for_lesson, if_neg hns]
    · intro h1 h2
      rw [if_pos ⟨h1, h2⟩]
    · intro h1 h2
      rw [if_neg (fun hc => absurd h1 (not_le.mpr hc.1)), if_pos ⟨h1, h2⟩]
    · intro h1
      rw [if_neg (fun hc => absurd h1 (not_le.mpr hc.2)),
        if_neg (fun hc => absurd h1 (not_le.mpr hc.2))]
    · norm_num
    · norm_num
    · norm_num
    · norm_num

/-- Witness for C1 at concrete inputs. -/
theorem claim_C1_per_lesson_classifier_witness :
    classify_student_for_lesson 7 9 (5 : ℚ) (3 : ℚ) 4 = Classification.insufficient_data ∧
    classify_student_for_lesson 2 2 (5 : ℚ) (3 : ℚ) 20 = Classification.star :=
  ⟨(claim_C1_per_lesson_classifier 7 9 5 3 4).1 (by norm_num [MINIMUM_COHORT_SIZE]),
   ((claim_C1_per_lesson_classifier 2 2 5 3 20).2 (by norm_num [MINIMUM_COHORT_SIZE])).1
     (by norm_num) (by norm_num)⟩

/-- C3: the Lesson Time Calculator returns 0 when either timestamp is absent;
when both are present and parseable it returns max(1, floored day
difference), which is positive, and a same-instant pair yields 1. -/
theorem claim_C3_lesson_time (first_practice last_practice : Option Timestamp) :
    (first_practice = none ∨ last_practice = none →
      calculate_lesson_time_days first_practice last_practice = 0) ∧
    (∀ f lp fm lm, first_practice = some f → last_practice = some lp →
      f.parsed = some fm → lp.parsed = some lm →
      calculate_lesson_time_days first_practice last_practice
        = max 1 (Int.fdiv (lm - fm) MINUTES_PER_DAY) ∧
      0 < calculate_lesson_time_days first_practice last_practice ∧
      (fm = lm → calculate_lesson_time_days first_practice last_practice = 1)) := by
  constructor
  · rintro (rfl | rfl)
    · rfl
    · cases first_practice <;> rfl
  · rintro f lp fm lm rfl rfl hf hl
    refine ⟨?_, ?_, ?_⟩
    · simp [calculate_lesson_time_days, hf, hl]
    · simp only [calculate_lesson_time_days, hf, hl]
      exact lt_of_lt_of_le one_pos (le_max_left _ _)
    · rintro rfl
      simp [calculate_lesson_time_days, hf, hl, Int.fdiv]

/-- Witness for C3 at concrete inputs: absent first timestamp, and a
same-instant pair. -/
theorem claim_C3_lesson_time_witness :
    calculate_lesson_time_days none (some ⟨some 5⟩) = 0 ∧
    calculate_lesson_time_days (some ⟨some 7⟩) (some ⟨some 7⟩) = 1 :=
  ⟨(claim_C3_lesson_time none (some ⟨some 5⟩)).1 (Or.inl rfl),
   ((claim_C3_lesson_time (some ⟨some 7⟩) (some ⟨some 7⟩)).2 ⟨some 7⟩ ⟨some 7⟩ 7 7
      rfl rfl rfl rfl).2.2 rfl⟩

/-- C5: on a non-empty list of labels (with `insufficient_data` already
excluded, per the contract) the Overall Classifier returns a label whose
occurrence count is the maximal count, and among the labels tied for the
maximum it returns the one of highest priority (star over high_runner over
normal); concretely star-star-normal gives star, high_runner-normal-normal
gives normal, the star/high_runner tie gives star, and the empty list gives
normal. -/
theorem claim_C5_overall_classifier (xs : List Classification) :
    (xs ≠ [] → Classification.insufficient_data ∉ xs →
      xs.count (calculate_overall_classification xs) = maxLabelCount xs ∧
      ∀ c, xs.count c = maxLabelCount xs →
        labelPriority c ≤ labelPriority (calculate_overall_classification xs)) ∧
    calculate_overall_classification
      [Classification.star, Classification.star, Classification.normal]
      = Classification.star ∧
    calculate_overall_classification
      [Classification.high_runner, Classification.normal, Classification.normal]
      = Classification.normal ∧
    calculate_overall_classification [Classification.star, Classification.high_runner]
      = Classification.star ∧
    calculate_overall_classification ([] : List Classification) = Classification.normal := by
  refine ⟨?_, by decide, by decide, by decide, by decide⟩
  intro hne hni
  have hfilter : xs.filter (fun c => decide (c ≠ Classification.insufficient_data)) = xs := by
    refine List.filter_eq_self.mpr ?_
    intro a ha
    simp only [decide_eq_true_eq]
    rintro rfl
    exact hni ha
  have hE : xs.isEmpty = false := List.isEmpty_eq_false.mpr hne
  have hM : List.count Classification.star xs
      ⊔ (List.count Classification.high_runner xs ⊔ List.count Classification.normal xs)
      = maxLabelCount xs := rfl
  rw [calculate_overall_classification]
  simp only [hE, Bool.false_eq_true, if_false, hfilter, hM]
  by_cases h1 : xs.count Classification.star = maxLabelCount xs
  · rw [if_pos h1]
    refine ⟨h1, ?_⟩
    intro c _
    cases c <;> simp [labelPriority]
  · rw [if_neg h1]
    by_cases h2 : xs.count Classification.high_runner = maxLabelCount xs
    · rw [if_pos h2]
      refine ⟨h2, ?_⟩
      intro c hc
      cases c <;> simp_all [labelPriority]
    · rw [if_neg h2]
      have h3 : xs.count Classification.normal = maxLabelCount xs := by
        rcases max_choice (xs.count Classification.star)
            (max (xs.count Classification.high_runner) (xs.count Classification.normal)) with
          hm | hm
        · exact absurd hm.symm h1
        · rcases max_choice (xs.count Classification.high_runner)
              (xs.count Classification.normal) with hm2 | hm2
          · exact absurd (hm.trans hm2).symm h2
          · exact (hm.trans hm2).symm
      refine ⟨h3, ?_⟩
      intro c hc
      cases c <;> simp_all [labelPriority]

/-- Witness for C5 at the star/high_runner tie. -/
theorem claim_C5_overall_classifier_witness :
    [Classification.star, Classification.high_runner].count
        (calculate_overall_classification [Classification.star, Classification.high_runner])
      = maxLabelCount [Classification.star, Classification.high_runner] :=
  ((claim_C5_overall_classifier [Classification.star, Classification.high_runner]).1
    (by decide) (by decide)).1

/-- The Python append-in-a-loop pattern of the cohort loop is `filterMap`. -/
theorem foldl_appendIfIncluded (lesson_num : Int) (l : List Student) (acc : List (Nat × Int)) :
    l.foldl (appendIfIncluded lesson_num) acc
      = acc ++ l.filterMap (includedEntry lesson_num) := by
  induction l generalizing acc with
  | nil => simp
  | cons x xs ih =>
    cases hfx : includedEntry lesson_num x <;>
      simp [List.foldl_cons, List.filterMap_cons, hfx, ih, appendIfIncluded]

/-- Length of a filterMap as a count. -/
theorem length_filterMap_eq_countP {α β : Type} (f : α → Option β) (l : List α) :
    (l.filterMap f).length = l.countP (fun a => (f a).isSome) := by
  induction l with
  | nil => rfl
  | cons x xs ih => cases hfx : f x <;> simp [List.filterMap_cons, hfx, List.countP_cons, ih]

/-- `get_cohort_stats_for_lesson` characterized through the list of included
entries. -/
theorem get_cohort_stats_eq (lesson_num : Int) (all_students : List Student) :
    get_cohort_stats_for_lesson lesson_num all_students
      = if (all_students.filterMap (includedEntry lesson_num)).length = 0 then ⟨0, 0, 0⟩
        else ⟨(all_students.filterMap (includedEntry lesson_num)).length,
          round2 (((all_students.filterMap (includedEntry lesson_num)).map
              (fun e => (e.1 : ℚ))).sum
            / ((all_students.filterMap (includedEntry lesson_num)).length : ℚ)),
          round2 (((all_students.filterMap (includedEntry lesson_num)).map
              (fun e => (e.2 : ℚ))).sum
            / ((all_students.filterMap (includedEntry lesson_num)).length : ℚ))⟩ := by
  simp only [get_cohort_stats_for_lesson, foldl_appendIfIncluded, List.nil_append]

/-- C4: the Cohort Statistics Aggregator includes exactly the students whose
first matching instance exists, has both timestamps, and has positive
computed lesson time; with an empty cohort both averages are 0; otherwise
each average is the rounded arithmetic mean of the included values. -/
theorem claim_C4_cohort_stats (lesson_num : Int) (all_students : List Student) :
    (get_cohort_stats_for_lesson lesson_num all_students).cohort_size
        = all_students.countP (fun s => (includedEntry lesson_num s).isSome) ∧
    (∀ s : Student, (includedEntry lesson_num s).isSome = true ↔
      ∃ l, s.lessons.find? (lessonMatches lesson_num) = some l ∧
        l.first_practice.isSome = true ∧ l.last_practice.isSome = true ∧
        0 < calculate_lesson_time_days l.first_practice l.last_practice) ∧
    ((get_cohort_stats_for_lesson lesson_num all_students).cohort_size = 0 →
      (get_cohort_stats_for_lesson lesson_num all_students).cohort_avg_practice = 0 ∧
      (get_cohort_stats_for_lesson lesson_num all_students).cohort_avg_time_days = 0) ∧
    (0 < (get_cohort_stats_for_lesson lesson_num all_students).cohort_size →
      (get_cohort_stats_for_lesson lesson_num all_students).cohort_avg_practice
        = round2 (((all_students.filterMap (includedEntry lesson_num)).map
            (fun e => (e.1 : ℚ))).sum
          / ((all_students.filterMap (includedEntry lesson_num)).length : ℚ)) ∧
      (get_cohort_stats_for_lesson lesson_num all_students).cohort_avg_time_days
        = round2 (((all_students.filterMap (includedEntry lesson_num)).map
            (fun e => (e.2 : ℚ))).sum
          / ((all_students.filterMap (includedEntry lesson_num)).length : ℚ))) := by
  have hchar : ∀ s : Student, (includedEntry lesson_num s).isSome = true ↔
      ∃ l, s.lessons.find? (lessonMatches lesson_num) = some l ∧
        l.first_practice.isSome = true ∧ l.last_practice.isSome = true ∧
        0 < calculate_lesson_time_days l.first_practice l.last_practice := by
    intro s
    rw [includedEntry]
    cases hfind : s.lessons.find? (lessonMatches lesson_num) with
    | none => simp
    | some l =>
      cases hf : l.first_practice with
      | none => simp [hf]
      | some f =>
        cases hl : l.last_practice with
        | none => simp [hf, hl]
        | some lp =>
          by_cases ht : calculate_lesson_time_days (some f) (some lp) > 0
          · simp [hf, hl, ht]
          · simp [hf, hl, ht]
  refine ⟨?_, hchar, ?_, ?_⟩
  · rw [get_cohort_stats_eq, ← length_filterMap_eq_countP]
    split
    · rename_i h
      exact h.symm
    · rfl
  · rw [get_cohort_stats_eq]
    split
    · exact fun _ => ⟨rfl, rfl⟩
    · rename_i h
      exact fun hc => absurd hc h
  · rw [get_cohort_stats_eq]
    split
    · exact fun hc => absurd hc (by norm_num)
    · exact fun _ => ⟨rfl, rfl⟩

/-- Witness for C4: a two-student population for lesson 1, one valid and one
missing a timestamp; the averages are the rounded means of the single
included entry. -/
theorem claim_C4_cohort_stats_witness :
    (get_cohort_stats_for_lesson 1 popTwo).cohort_avg_practice
      = round2 (((popTwo.filterMap (includedEntry 1)).map (fun e => (e.1 : ℚ))).sum
          / ((popTwo.filterMap (includedEntry 1)).length : ℚ)) :=
  ((claim_C4_cohort_stats 1 popTwo).2.2.2 (by decide)).1

/-- The chapter loop accumulates exactly the classifications selected by
`chapterClassOf`, and its counters count that list. -/
theorem chapter_foldl_spec (lessons : List LessonInstance) (current_lesson : Int)
    (nums : List Int) (acc : ChapterAcc) :
    nums.foldl (chapterStep lessons current_lesson) acc
      = ⟨acc.chapter_classifications
            ++ nums.filterMap (chapterClassOf lessons current_lesson),
         acc.stars + (nums.filterMap (chapterClassOf lessons current_lesson)).count
            Classification.star,
         acc.high_runners + (nums.filterMap (chapterClassOf lessons current_lesson)).count
            Classification.high_runner,
         acc.normal + (nums.filterMap (chapterClassOf lessons current_lesson)).count
            Classification.normal,
         acc.completed_lessons
            + (nums.filterMap (chapterClassOf lessons current_lesson)).length⟩ := by
  induction nums generalizing acc with
  | nil => simp
  | cons n ns ih =>
    cases hc : chapterClassOf lessons current_lesson n with
    | none =>
      rw [List.foldl_cons, List.filterMap_cons_none hc]
      rw [show chapterStep lessons current_lesson acc n = acc by
        rw [chapterStep, hc]]
      exact ih acc
    | some c =>
      rw [List.foldl_cons, List.filterMap_cons_some hc, ih]
      rw [show chapterStep lessons current_lesson acc n
          = ⟨acc.chapter_classifications ++ [c],
             acc.stars + (if c = Classification.star then 1 else 0),
             acc.high_runners + (if c = Classification.high_runner then 1 else 0),
             acc.normal + (if c = Classification.normal then 1 else 0),
             acc.completed_lessons + 1⟩ by rw [chapterStep, hc]]
      simp only [ChapterAcc.mk.injEq, List.append_assoc, List.singleton_append,
        List.count_cons, List.length_cons, beq_iff_eq]
      refine ⟨?_, ?_, ?_, ?_, ?_⟩ <;> first | trivial | omega

/-- The Bool form of the conditions under which the chapter loop counts a
lesson number. -/
theorem chapterClassOf_isSome (lessons : List LessonInstance) (current_lesson : Int)
    (n : Int) :
    (chapterClassOf lessons current_lesson n).isSome
      = (decide (current_lesson > n) &&
          (match lessons.find? (lessonMatches n) with
           | some l => l.classification.isSome
               && !(l.classification == some Classification.insufficient_data)
           | none => false)) := by
  rw [chapterClassOf]
  by_cases h : current_lesson ≤ n
  · rw [if_pos h]
    simp [not_lt.mpr h]
  · rw [if_neg h]
    have hgt : n < current_lesson := not_le.mp h
    cases hfind : lessons.find? (lessonMatches n) with
    | none => simp [hgt]
    | some l =>
      cases hcl : l.classification with
      | none => simp [hgt, hcl]
      | some c => cases c <;> simp [hgt, hcl]

/-- C6: the Chapter Rollup Aggregator counts exactly the chapter lesson
numbers the student has progressed past whose instance is present with a
classification that is neither absent nor insufficient_data; its counters
count the accumulated classifications; and the chapter classification is
the Overall Classifier of the accumulated list when non-empty and null when
empty. -/
theorem claim_C6_chapter_rollup (lessons : List LessonInstance)
    (chapter_lesson_nums : List Int) (current_lesson : Int) :
    (calculate_chapter_summary lessons chapter_lesson_nums current_lesson).completed_lessons
        = (chapter_lesson_nums.filterMap (chapterClassOf lessons current_lesson)).length ∧
    (calculate_chapter_summary lessons chapter_lesson_nums current_lesson).completed_lessons
        = chapter_lesson_nums.countP (fun n =>
            decide (current_lesson > n) &&
              (match lessons.find? (lessonMatches n) with
               | some l => l.classification.isSome
                   && !(l.classification == some Classification.insufficient_data)
               | none => false)) ∧
    (calculate_chapter_summary lessons chapter_lesson_nums current_lesson).stars
        = (chapter_lesson_nums.filterMap (chapterClassOf lessons current_lesson)).count
            Classification.star ∧
    (calculate_chapter_summary lessons chapter_lesson_nums current_lesson).high_runners
        = (chapter_lesson_nums.filterMap (chapterClassOf lessons current_lesson)).count
            Classification.high_runner ∧
    (calculate_chapter_summary lessons chapter_lesson_nums current_lesson).normal
        = (chapter_lesson_nums.filterMap (chapterClassOf lessons current_lesson)).count
            Classification.normal ∧
    (calculate_chapter_summary lessons chapter_lesson_nums current_lesson).classification
        = (if chapter_lesson_nums.filterMap (chapterClassOf lessons current_lesson) = []
           then none
           else some (calculate_overall_classification
             (chapter_lesson_nums.filterMap (chapterClassOf lessons current_lesson)))) := by
  have hfold := chapter_foldl_spec lessons current_lesson chapter_lesson_nums ⟨[], 0, 0, 0, 0⟩
  rw [calculate_chapter_summary]
  simp only [hfold, List.nil_append, Nat.zero_add]
  refine ⟨by trivial, ?_, by trivial, by trivial, by trivial, ?_⟩
  · rw [length_filterMap_eq_countP]
    exact List.countP_congr
      (fun n _ => by rw [chapterClassOf_isSome lessons current_lesson n])
  · simp [List.isEmpty_iff]

/-- A list of classifications free of `insufficient_data` is exhausted by the
three counted categories. -/
theorem length_eq_three_counts (l : List Classification)
    (h : ∀ c ∈ l, c ≠ Classification.insufficient_data) :
    l.length = l.count Classification.star + l.count Classification.high_runner
      + l.count Classification.normal := by
  induction l with
  | nil => rfl
  | cons x xs ih =>
    have hx := h x (List.mem_cons_self x xs)
    have ih2 := ih (fun c hc => h c (List.mem_cons_of_mem x hc))
    rw [List.length_cons, List.count_cons, List.count_cons, List.count_cons, ih2]
    simp only [beq_iff_eq]
    cases x with
    | star => simp only [reduceIte, reduceCtorEq]; omega
    | high_runner => simp only [reduceIte, reduceCtorEq]; omega
    | normal => simp only [reduceIte, reduceCtorEq]; omega
    | insufficient_data => exact absurd rfl hx

/-- The chapter loop never accumulates `insufficient_data`. -/
theorem chapterClassOf_ne_insufficient (lessons : List LessonInstance) (current_lesson : Int)
    (n : Int) (c : Classification) (h : chapterClassOf lessons current_lesson n = some c) :
    c ≠ Classification.insufficient_data := by
  rw [chapterClassOf] at h
  by_cases hle : current_lesson ≤ n
  · rw [if_pos hle] at h
    exact absurd h (by simp)
  · rw [if_neg hle] at h
    cases hfind : lessons.find? (lessonMatches n) with
    | none => simp [hfind] at h
    | some l =>
      rw [hfind] at h
      cases hcl : l.classification with
      | none => simp [hcl] at h
      | some c0 =>
        cases c0 <;> simp only [hcl, Option.some.injEq, reduceCtorEq] at h <;>
          (rw [← h]; decide)

/-- In every chapter summary, completed_lessons is the sum of the three
category counters. -/
theorem chapter_summary_counts (lessons : List LessonInstance) (nums : List Int)
    (current_lesson : Int) :
    (calculate_chapter_summary lessons nums current_lesson).completed_lessons
      = (calculate_chapter_summary lessons nums current_lesson).stars
        + (calculate_chapter_summary lessons nums current_lesson).high_runners
        + (calculate_chapter_summary lessons nums current_lesson).normal := by
  rw [calculate_chapter_summary]
  simp only [chapter_foldl_spec, List.nil_append, Nat.zero_add]
  refine length_eq_three_counts _ (fun c hc => ?_)
  rcases List.mem_filterMap.mp hc with ⟨n, _, hn⟩
  exact chapterClassOf_ne_insufficient lessons current_lesson n c hn

/-- C10: in every produced performance summary, total_lessons_classified is
the sum of the three per-category counts, and in every chapter summary
completed_lessons is the sum of its three category counters. -/
theorem claim_C10_count_consistency (cohort_stats : Int → CohortStats) (student : Student) :
    (calculate_performance_for_student cohort_stats student).performance_summary
        = some (performanceSummaryOf cohort_stats student) ∧
    (performanceSummaryOf cohort_stats student).total_lessons_classified
        = (performanceSummaryOf cohort_stats student).stars_count
          + (performanceSummaryOf cohort_stats student).high_runners_count
          + (performanceSummaryOf cohort_stats student).normal_count ∧
    ∀ ch ∈ [(performanceSummaryOf cohort_stats student).chapter_a,
            (performanceSummaryOf cohort_stats student).chapter_b,
            (performanceSummaryOf cohort_stats student).lesson_12,
            (performanceSummaryOf cohort_stats student).chapter_c],
      ch.completed_lessons = ch.stars + ch.high_runners + ch.normal := by
  refine ⟨rfl, ?_, ?_⟩
  · have hni : ∀ c ∈ allClassificationsOf cohort_stats student,
        c ≠ Classification.insufficient_data := by
      intro c hc
      have := List.of_mem_filter hc
      simpa using this
    simpa [performanceSummaryOf] using
      length_eq_three_counts (allClassificationsOf cohort_stats student) hni
  · intro ch hch
    have hch4 : ch = (performanceSummaryOf cohort_stats student).chapter_a ∨
        ch = (performanceSummaryOf cohort_stats student).chapter_b ∨
        ch = (performanceSummaryOf cohort_stats student).lesson_12 ∨
        ch = (performanceSummaryOf cohort_stats student).chapter_c := by
      simpa using hch
    rcases hch4 with rfl | rfl | rfl | rfl <;>
      simp only [performanceSummaryOf] <;>
      exact chapter_summary_counts _ _ _

/-- Per-lesson loop, unparseable lesson number: the instance is skipped
untouched. -/
theorem processLesson_none (current_lesson : Int) (cohort_stats : Int → CohortStats)
    (l : LessonInstance) (hn : pyParseInt l.lesson = none) :
    processLesson current_lesson cohort_stats l = (l, none) := by
  rw [processLesson, hn]

/-- Per-lesson loop, lesson not yet progressed past: computed fields nulled. -/
theorem processLesson_notPast (current_lesson : Int) (cohort_stats : Int → CohortStats)
    (l : LessonInstance) (n : Int) (hn : pyParseInt l.lesson = some n)
    (hle : current_lesson ≤ n) :
    processLesson current_lesson cohort_stats l = (nullOutComputed l, none) := by
  rw [processLesson, hn]
  simp [hle]

/-- Per-lesson loop, missing first timestamp: computed fields nulled. -/
theorem processLesson_noFirst (current_lesson : Int) (cohort_stats : Int → CohortStats)
    (l : LessonInstance) (n : Int) (hn : pyParseInt l.lesson = some n)
    (hlt : n < current_lesson) (hf : l.first_practice = none) :
    processLesson current_lesson cohort_stats l = (nullOutComputed l, none) := by
  rw [processLesson, hn]
  dsimp only
  rw [if_neg (not_le.mpr hlt), hf]

/-- Per-lesson loop, missing last timestamp: computed fields nulled. -/
theorem processLesson_noLast (current_lesson : Int) (cohort_stats : Int → CohortStats)
    (l : LessonInstance) (n : Int) (hn : pyParseInt l.lesson = some n)
    (hlt : n < current_lesson) (hl : l.last_practice = none) :
    processLesson current_lesson cohort_stats l = (nullOutComputed l, none) := by
  rw [processLesson, hn]
  dsimp only
  rw [if_neg (not_le.mpr hlt), hl]
  cases hx : l.first_practice <;> rfl

/-- Per-lesson loop, classify branch: with both timestamps present the lesson
time (possibly 0), the cohort numbers and the classification are stored —
unconditionally on the lesson time. -/
theorem processLesson_classify (current_lesson : Int) (cohort_stats : Int → CohortStats)
    (l : LessonInstance) (n : Int) (f lp : Timestamp) (hn : pyParseInt l.lesson = some n)
    (hlt : n < current_lesson) (hf : l.first_practice = some f)
    (hl : l.last_practice = some lp) :
    processLesson current_lesson cohort_stats l
      = ({ l with lesson_time_days := some (calculate_lesson_time_days (some f) (some lp))
                  classification := some (classify_student_for_lesson l.practice_count
                    (calculate_lesson_time_days (some f) (some lp))
                    (cohort_stats n).cohort_avg_practice
                    (cohort_stats n).cohort_avg_time_days (cohort_stats n).cohort_size)
                  cohort_avg_practice := some (cohort_stats n).cohort_avg_practice
                  cohort_avg_time_days := some (cohort_stats n).cohort_avg_time_days
                  cohort_size := some (cohort_stats n).cohort_size },
         some (classify_student_for_lesson l.practice_count
           (calculate_lesson_time_days (some f) (some lp))
           (cohort_stats n).cohort_avg_practice
           (cohort_stats n).cohort_avg_time_days (cohort_stats n).cohort_size)) := by
  rw [processLesson, hn]
  dsimp only
  rw [if_neg (not_le.mpr hlt), hf, hl]

/-- C2 fails as stated: a lesson instance with both timestamps present but
unparseable still receives a non-null classification while its computed
lesson_time_days is 0 (not positive) and its computed fields are not
nulled. -/
theorem claim_C2_counterexample :
    ((calculate_performance_for_student (fun _ => ⟨0, 0, 0⟩) stuBadTs).lessons.map
        (fun l => (l.classification, l.lesson_time_days)))
      = [(some Classification.insufficient_data, some 0)] := by decide

/-- C2 corrected: an instance with parseable lesson number receives a non-null
classification exactly when the student has progressed past it and both
timestamps are present — positivity of the computed lesson time is not
required; instances failing the progression or presence conditions have all
computed fields set to null; and the student on lesson 3 with instances
1..5 has instances 3, 4, 5 nulled and 1, 2 classified. -/
theorem claim_C2_classifiability (current_lesson : Int) (cohort_stats : Int → CohortStats)
    (l : LessonInstance) (n : Int) (hn : pyParseInt l.lesson = some n) :
    (current_lesson ≤ n ∨ l.first_practice = none ∨ l.last_practice = none →
      (processLesson current_lesson cohort_stats l).1.lesson_time_days = none ∧
      (processLesson current_lesson cohort_stats l).1.classification = none ∧
      (processLesson current_lesson cohort_stats l).1.cohort_avg_practice = none ∧
      (processLesson current_lesson cohort_stats l).1.cohort_avg_time_days = none ∧
      (processLesson current_lesson cohort_stats l).1.cohort_size = none) ∧
    (n < current_lesson → ∀ f lp, l.first_practice = some f → l.last_practice = some lp →
      (processLesson current_lesson cohort_stats l).1.classification
        = some (classify_student_for_lesson l.practice_count
            (calculate_lesson_time_days (some f) (some lp))
            (cohort_stats n).cohort_avg_practice
            (cohort_stats n).cohort_avg_time_days (cohort_stats n).cohort_size) ∧
      (processLesson current_lesson cohort_stats l).1.lesson_time_days
        = some (calculate_lesson_time_days (some f) (some lp))) ∧
    ((calculate_performance_for_student statsTwelve stuFive).lessons.map
        (fun li => li.classification.isSome)
      = [true, true, false, false, false]) ∧
    ((calculate_performance_for_student statsTwelve stuFive).lessons.map
        (fun li => (li.lesson_time_days, li.cohort_avg_practice, li.cohort_avg_time_days,
          li.cohort_size))
      = [(some 1, some 5, some 3, some 12), (some 1, some 5, some 3, some 12),
         (none, none, none, none), (none, none, none, none), (none, none, none, none)]) := by
  refine ⟨?_, ?_, by decide, by decide⟩
  · intro h
    by_cases hle : current_lesson ≤ n
    · rw [processLesson_notPast current_lesson cohort_stats l n hn hle]
      exact ⟨rfl, rfl, rfl, rfl, rfl⟩
    · have hlt : n < current_lesson := not_le.mp hle
      rcases h with h | h | h
      · exact absurd h hle
      · rw [processLesson_noFirst current_lesson cohort_stats l n hn hlt h]
        exact ⟨rfl, rfl, rfl, rfl, rfl⟩
      · rw [processLesson_noLast current_lesson cohort_stats l n hn hlt h]
        exact ⟨rfl, rfl, rfl, rfl, rfl⟩
  · intro hlt f lp hf hl
    rw [processLesson_classify current_lesson cohort_stats l n f lp hn hlt hf hl]
    exact ⟨rfl, rfl⟩

/-- Witness for the corrected C2 at a concrete nulled instance and a concrete
classified instance. -/
theorem claim_C2_classifiability_witness :
    (processLesson 3 statsTwelve
        { lesson := "5", practice_count := 1,
          first_practice := some ⟨some 0⟩,
          last_practice := some ⟨some 1440⟩ }).1.classification = none ∧
    (processLesson 3 statsTwelve
        { lesson := "1", practice_count := 2,
          first_practice := some ⟨some 0⟩,
          last_practice := some ⟨some 1440⟩ }).1.classification
      = some (classify_student_for_lesson 2 (calculate_lesson_time_days
          (some ⟨some 0⟩) (some ⟨some 1440⟩)) (statsTwelve 1).cohort_avg_practice
          (statsTwelve 1).cohort_avg_time_days (statsTwelve 1).cohort_size) :=
  ⟨((claim_C2_classifiability 3 statsTwelve
      { lesson := "5", practice_count := 1, first_practice := some ⟨some 0⟩,
        last_practice := some ⟨some 1440⟩ } 5 (by decide)).1
      (Or.inl (by decide))).2.1,
   (((claim_C2_classifiability 3 statsTwelve
      { lesson := "1", practice_count := 2, first_practice := some ⟨some 0⟩,
        last_practice := some ⟨some 1440⟩ } 1 (by decide)).2.1
      (by decide) ⟨some 0⟩ ⟨some 1440⟩ rfl rfl)).1⟩

/-- Witness for C10 at a concrete student and stats table. -/
theorem claim_C10_count_consistency_witness :
    (performanceSummaryOf statsTwelve stuFive).total_lessons_classified
        = (performanceSummaryOf statsTwelve stuFive).stars_count
          + (performanceSummaryOf statsTwelve stuFive).high_runners_count
          + (performanceSummaryOf statsTwelve stuFive).normal_count ∧
    (performanceSummaryOf statsTwelve stuFive).chapter_a.completed_lessons
        = (performanceSummaryOf statsTwelve stuFive).chapter_a.stars
          + (performanceSummaryOf statsTwelve stuFive).chapter_a.high_runners
          + (performanceSummaryOf statsTwelve stuFive).chapter_a.normal :=
  ⟨(claim_C10_count_consistency statsTwelve stuFive).2.1,
   (claim_C10_count_consistency statsTwelve stuFive).2.2
     (performanceSummaryOf statsTwelve stuFive).chapter_a (by simp)⟩

/-- C7 fails as stated: an instance storing its lesson as "01" denotes the
integer 1 and has valid same-instant timestamps (lesson time 1 > 0), yet
the aggregator does not locate it for lesson 1 — its cohort stays empty. -/
theorem claim_C7_counterexample :
    pyParseInt ("01") = some 1 ∧
    calculate_lesson_time_days (some ⟨some 0⟩) (some ⟨some 0⟩) = 1 ∧
    (get_cohort_stats_for_lesson 1 popZeroOne).cohort_size = 0 := by decide

/-- C7 corrected: the locator normalizes both sides to strings, not integers —
an instance matches the sought lesson number exactly when its stored lesson
string equals the decimal string of that number; the first matching
instance with both timestamps present and positive lesson time is found and
included in the cohort. -/
theorem claim_C7_matching (lesson_num : Int) (student : Student) (l : LessonInstance) :
    (∀ li : LessonInstance,
      lessonMatches lesson_num li = true ↔ li.lesson = toString lesson_num) ∧
    (student.lessons.find? (lessonMatches lesson_num) = some l →
      ∀ f lp, l.first_practice = some f → l.last_practice = some lp →
      0 < calculate_lesson_time_days l.first_practice l.last_practice →
      includedEntry lesson_num student
        = some (l.practice_count,
            calculate_lesson_time_days l.first_practice l.last_practice)) := by
  constructor
  · intro li
    rw [lessonMatches]
    exact beq_iff_eq
  · intro hfind f lp hf hl ht
    rw [includedEntry, hfind]
    dsimp only
    rw [hf, hl] at ht ⊢
    dsimp only
    rw [if_pos ht]

/-- Witness for the corrected C7: the valid student of the two-student example
population is found and included for lesson 1. -/
theorem claim_C7_matching_witness :
    includedEntry 1
        { current_lesson := "2",
          lessons := [{ lesson := "1", practice_count := 3,
                        first_practice := some ⟨some 0⟩,
                        last_practice := some ⟨some 2880⟩ }] }
      = some (3, calculate_lesson_time_days (some ⟨some 0⟩) (some ⟨some 2880⟩)) :=
  (claim_C7_matching 1
      { current_lesson := "2",
        lessons := [{ lesson := "1", practice_count := 3,
                      first_practice := some ⟨some 0⟩,
                      last_practice := some ⟨some 2880⟩ }] }
      { lesson := "1", practice_count := 3,
        first_practice := some ⟨some 0⟩,
        last_practice := some ⟨some 2880⟩ }).2
    (by decide) ⟨some 0⟩ ⟨some 2880⟩ rfl rfl (by decide)

/-- The per-student loop is compositional over list append. -/
theorem processStudents_append (cohort_stats : Int → CohortStats)
    (persist_ok : Student → Bool) (xs ys : List Student) :
    processStudents cohort_stats persist_ok (xs ++ ys)
      = (⟨(processStudents cohort_stats persist_ok xs).1.students_processed
            + (processStudents cohort_stats persist_ok ys).1.students_processed,
          (processStudents cohort_stats persist_ok xs).1.lessons_classified
            + (processStudents cohort_stats persist_ok ys).1.lessons_classified,
          (processStudents cohort_stats persist_ok xs).1.errors
            + (processStudents cohort_stats persist_ok ys).1.errors⟩,
         (processStudents cohort_stats persist_ok xs).2
           ++ (processStudents cohort_stats persist_ok ys).2) := by
  induction xs with
  | nil => simp [processStudents]
  | cons x xs ih =>
    rw [List.cons_append]
    simp only [processStudents]
    rw [ih]
    refine Prod.ext ?_ ?_
    · simp only [RunAgg.mk.injEq]
      refine ⟨?_, ?_, ?_⟩ <;> omega
    · simp [List.append_assoc]

/-- C9: a failed connection or a failed snapshot fetch aborts the run with
zero processed and classified counts, one error, and no writes; a failed
persistence of one student is caught locally, adds exactly one to the error
counter, and every other student before and after it is still processed and
written. -/
theorem claim_C9_error_handling :
    (∀ (fetch_result : Option (List Student)) (persist_ok : Student → Bool),
      calculate_all_student_performance false fetch_result persist_ok
        = (⟨0, 0, 1⟩, [])) ∧
    (∀ persist_ok : Student → Bool,
      calculate_all_student_performance true none persist_ok = (⟨0, 0, 1⟩, [])) ∧
    (∀ (cohort_stats : Int → CohortStats) (persist_ok : Student → Bool)
        (l1 l2 : List Student) (s : Student),
      s.uniq_id.isSome = true →
      persist_ok (calculate_performance_for_student cohort_stats s) = false →
      processStudents cohort_stats persist_ok (l1 ++ s :: l2)
        = (⟨(processStudents cohort_stats persist_ok l1).1.students_processed
              + (processStudents cohort_stats persist_ok l2).1.students_processed,
            (processStudents cohort_stats persist_ok l1).1.lessons_classified
              + (processStudents cohort_stats persist_ok l2).1.lessons_classified,
            (processStudents cohort_stats persist_ok l1).1.errors + 1
              + (processStudents cohort_stats persist_ok l2).1.errors⟩,
           (processStudents cohort_stats persist_ok l1).2
             ++ (processStudents cohort_stats persist_ok l2).2)) := by
  refine ⟨fun _ _ => rfl, fun _ => rfl, ?_⟩
  intro cohort_stats persist_ok l1 l2 s hu hp
  have hsingle : processStudents cohort_stats persist_ok [s] = (⟨0, 0, 1⟩, []) := by
    rcases Option.isSome_iff_exists.mp hu with ⟨u, hu2⟩
    simp [processStudents, hu2, hp]
  rw [← List.singleton_append, processStudents_append, processStudents_append, hsingle]
  refine Prod.ext ?_ ?_
  · simp only [RunAgg.mk.injEq]
    refine ⟨?_, ?_, ?_⟩ <;> omega
  · simp

/-- Witness for C9: the middle student's write fails; the other two are still
processed and written. -/
theorem claim_C9_error_handling_witness :
    processStudents statsTwelve (fun st => !(st.uniq_id == some ("B")))
        ([{ uniq_id := some ("A"), current_lesson := "1", lessons := [] }]
          ++ { uniq_id := some ("B"), current_lesson := "1", lessons := [] }
            :: [{ uniq_id := some ("C"), current_lesson := "1", lessons := [] }])
      = (⟨(processStudents statsTwelve (fun st => !(st.uniq_id == some ("B")))
              [{ uniq_id := some ("A"), current_lesson := "1", lessons := [] }]).1.students_processed
            + (processStudents statsTwelve (fun st => !(st.uniq_id == some ("B")))
              [{ uniq_id := some ("C"), current_lesson := "1", lessons := [] }]).1.students_processed,
          (processStudents statsTwelve (fun st => !(st.uniq_id == some ("B")))
              [{ uniq_id := some ("A"), current_lesson := "1", lessons := [] }]).1.lessons_classified
            + (processStudents statsTwelve (fun st => !(st.uniq_id == some ("B")))
              [{ uniq_id := some ("C"), current_lesson := "1", lessons := [] }]).1.lessons_classified,
          (processStudents statsTwelve (fun st => !(st.uniq_id == some ("B")))
              [{ uniq_id := some ("A"), current_lesson := "1", lessons := [] }]).1.errors + 1
            + (processStudents statsTwelve (fun st => !(st.uniq_id == some ("B")))
              [{ uniq_id := some ("C"), current_lesson := "1", lessons := [] }]).1.errors⟩,
         (processStudents statsTwelve (fun st => !(st.uniq_id == some ("B")))
             [{ uniq_id := some ("A"), current_lesson := "1", lessons := [] }]).2
           ++ (processStudents statsTwelve (fun st => !(st.uniq_id == some ("B")))
             [{ uniq_id := some ("C"), current_lesson := "1", lessons := [] }]).2) :=
  (claim_C9_error_handling).2.2 statsTwelve (fun st => !(st.uniq_id == some ("B")))
    [{ uniq_id := some ("A"), current_lesson := "1", lessons := [] }]
    [{ uniq_id := some ("C"), current_lesson := "1", lessons := [] }]
    { uniq_id := some ("B"), current_lesson := "1", lessons := [] }
    (by decide) (by decide)

/-- The per-lesson loop never changes the fields the computation reads. -/
theorem processLesson_fst_reads (current_lesson : Int) (cohort_stats : Int → CohortStats)
    (l : LessonInstance) :
    (processLesson current_lesson cohort_stats l).1.lesson = l.lesson ∧
    (processLesson current_lesson cohort_stats l).1.practice_count = l.practice_count ∧
    (processLesson current_lesson cohort_stats l).1.first_practice = l.first_practice ∧
    (processLesson current_lesson cohort_stats l).1.last_practice = l.last_practice := by
  cases hn : pyParseInt l.lesson with
  | none =>
    rw [processLesson_none current_lesson cohort_stats l hn]
    exact ⟨rfl, rfl, rfl, rfl⟩
  | some n =>
    by_cases hle : current_lesson ≤ n
    · rw [processLesson_notPast current_lesson cohort_stats l n hn hle]
      exact ⟨rfl, rfl, rfl, rfl⟩
    · have hlt := not_le.mp hle
      cases hf : l.first_practice with
      | none =>
        rw [processLesson_noFirst current_lesson cohort_stats l n hn hlt hf]
        exact ⟨rfl, rfl, hf, rfl⟩
      | some f =>
        cases hl : l.last_practice with
        | none =>
          rw [processLesson_noLast current_lesson cohort_stats l n hn hlt hl]
          exact ⟨rfl, rfl, hf, hl⟩
        | some lp =>
          rw [processLesson_classify current_lesson cohort_stats l n f lp hn hlt hf hl]
          exact ⟨rfl, rfl, hf, hl⟩

/-- One iteration of the per-lesson loop is idempotent: re-running it on an
already-updated instance recomputes the same values. -/
theorem processLesson_idem (current_lesson : Int) (cohort_stats : Int → CohortStats)
    (l : LessonInstance) :
    processLesson current_lesson cohort_stats (processLesson current_lesson cohort_stats l).1
      = processLesson current_lesson cohort_stats l := by
  cases hn : pyParseInt l.lesson with
  | none =>
    rw [processLesson_none current_lesson cohort_stats l hn]
    exact processLesson_none current_lesson cohort_stats l hn
  | some n =>
    by_cases hle : current_lesson ≤ n
    · rw [processLesson_notPast current_lesson cohort_stats l n hn hle]
      exact processLesson_notPast current_lesson cohort_stats (nullOutComputed l) n hn hle
    · have hlt := not_le.mp hle
      cases hf : l.first_practice with
      | none =>
        rw [processLesson_noFirst current_lesson cohort_stats l n hn hlt hf]
        exact processLesson_noFirst current_lesson cohort_stats (nullOutComputed l) n hn hlt hf
      | some f =>
        cases hl : l.last_practice with
        | none =>
          rw [processLesson_noLast current_lesson cohort_stats l n hn hlt hl]
          exact processLesson_noLast current_lesson cohort_stats (nullOutComputed l) n hn hlt hl
        | some lp =>
          rw [processLesson_classify current_lesson cohort_stats l n f lp hn hlt hf hl]
          exact processLesson_classify current_lesson cohort_stats _ n f lp hn hlt hf hl

/-- A full per-student computation does not change a student's contribution to
any cohort. -/
theorem includedEntry_calc (lesson_num : Int) (cohort_stats : Int → CohortStats) (s : Student) :
    includedEntry lesson_num (calculate_performance_for_student cohort_stats s)
      = includedEntry lesson_num s := by
  have hp : (lessonMatches lesson_num
        ∘ (Prod.fst ∘ processLesson (currentLessonOf s) cohort_stats))
      = lessonMatches lesson_num := by
    funext l
    show lessonMatches lesson_num (processLesson (currentLessonOf s) cohort_stats l).1
      = lessonMatches lesson_num l
    rw [lessonMatches, lessonMatches, (processLesson_fst_reads _ _ l).1]
  have hfind : (calculate_performance_for_student cohort_stats s).lessons.find?
      (lessonMatches lesson_num)
      = Option.map (Prod.fst ∘ processLesson (currentLessonOf s) cohort_stats)
          (s.lessons.find? (lessonMatches lesson_num)) := by
    show ((lessonResultsOf cohort_stats s).map Prod.fst).find? (lessonMatches lesson_num) = _
    rw [lessonResultsOf, List.map_map, List.find?_map, hp]
  rw [includedEntry, includedEntry, hfind]
  cases hfind0 : s.lessons.find? (lessonMatches lesson_num) with
  | none => rfl
  | some l0 =>
    simp only [Option.map_some', Function.comp_apply]
    rw [(processLesson_fst_reads (currentLessonOf s) cohort_stats l0).2.2.1,
      (processLesson_fst_reads (currentLessonOf s) cohort_stats l0).2.2.2,
      (processLesson_fst_reads (currentLessonOf s) cohort_stats l0).2.1]

/-- Phase 1 computes the same cohort statistics on a population already
updated by a full run. -/
theorem cohort_stats_calc (lesson_num : Int) (cohort_stats : Int → CohortStats)
    (pop : List Student) :
    get_cohort_stats_for_lesson lesson_num
        (pop.map (calculate_performance_for_student cohort_stats))
      = get_cohort_stats_for_lesson lesson_num pop := by
  rw [get_cohort_stats_eq, get_cohort_stats_eq, List.filterMap_map,
    show (includedEntry lesson_num ∘ calculate_performance_for_student cohort_stats)
        = includedEntry lesson_num from
      funext (fun s => includedEntry_calc lesson_num cohort_stats s)]

/-- The stats table of a population updated by a full run equals the stats
table of the original population. -/
theorem statsTable_runEngine (pop : List Student) :
    statsTable (runEngine pop) = statsTable pop := by
  funext n
  rw [statsTable, statsTable]
  by_cases h : 1 ≤ n ∧ n ≤ TOTAL_LESSONS
  · rw [if_pos h, if_pos h, runEngine, cohort_stats_calc]
  · rw [if_neg h, if_neg h]

/-- The per-student computation is idempotent against a fixed stats table. -/
theorem calc_student_idem (cohort_stats : Int → CohortStats) (s : Student) :
    calculate_performance_for_student cohort_stats
        (calculate_performance_for_student cohort_stats s)
      = calculate_performance_for_student cohort_stats s := by
  have hcl : currentLessonOf (calculate_performance_for_student cohort_stats s)
      = currentLessonOf s := rfl
  have hl0 : (calculate_performance_for_student cohort_stats s).lessons
      = (s.lessons.map (processLesson (currentLessonOf s) cohort_stats)).map Prod.fst := rfl
  have hres : lessonResultsOf cohort_stats (calculate_performance_for_student cohort_stats s)
      = lessonResultsOf cohort_stats s := by
    rw [lessonResultsOf, lessonResultsOf, hcl, hl0, List.map_map, List.map_map]
    exact List.map_congr_left
      (fun l _ => processLesson_idem (currentLessonOf s) cohort_stats l)
  have hup : updatedLessonsOf cohort_stats (calculate_performance_for_student cohort_stats s)
      = updatedLessonsOf cohort_stats s := by
    rw [updatedLessonsOf, updatedLessonsOf, hres]
  have hac : allClassificationsOf cohort_stats (calculate_performance_for_student cohort_stats s)
      = allClassificationsOf cohort_stats s := by
    rw [allClassificationsOf, allClassificationsOf, hres]
  have hps : performanceSummaryOf cohort_stats (calculate_performance_for_student cohort_stats s)
      = performanceSummaryOf cohort_stats s := by
    simp only [performanceSummaryOf, hup, hac, hcl]
  conv_lhs => rw [calculate_performance_for_student]
  rw [hup, hps]
  rfl

/-- C8: running the full two-phase engine on the population already updated by
a first run returns exactly the same updated students, and in particular
identical performance summaries. -/
theorem claim_C8_idempotent (all_students : List Student) :
    runEngine (runEngine all_students) = runEngine all_students ∧
    (runEngine (runEngine all_students)).map Student.performance_summary
      = (runEngine all_students).map Student.performance_summary := by
  have h : runEngine (runEngine all_students) = runEngine all_students := by
    nth_rewrite 1 [runEngine]
    rw [statsTable_runEngine]
    rw [runEngine, List.map_map,
      show (calculate_performance_for_student (statsTable all_students)
          ∘ calculate_performance_for_student (statsTable all_students))
        = calculate_performance_for_student (statsTable all_students) from
      funext (fun s => calc_student_idem (statsTable all_students) s)]
  exact ⟨h, by rw [h]⟩

end CalcPerf
